import Mathlib

/-!
Shallow embedding of the license service in `src/app.py` (Flask + PostgreSQL).

The `licenses` table (created in `init_db`) becomes a list of `LicenseRecord`
together with the SERIAL id counter (`Store`).  Timestamps are modelled as
natural numbers (an abstract instant scale); SQL `NULL` becomes `Option`.
Each route handler becomes a pure function from the request payload and the
store to the response, with the store threaded explicitly; a handler that
only reads (check, list) returns the store unchanged, mirroring the fact
that its SQL is a single SELECT.
-/

namespace LicenseApp

/-- A row of the `licenses` table:
`id SERIAL, license_key TEXT UNIQUE NOT NULL, is_active BOOLEAN DEFAULT TRUE,
description TEXT, created_at TIMESTAMP DEFAULT CURRENT_TIMESTAMP,
expires_at TIMESTAMP`. -/
structure LicenseRecord where
  id : Nat
  license_key : String
  is_active : Bool
  description : Option String
  created_at : Nat
  expires_at : Option Nat
deriving Repr, DecidableEq

/-- The database state: the rows plus the SERIAL sequence for `id`. -/
structure Store where
  records : List LicenseRecord
  next_id : Nat
deriving Repr, DecidableEq

/-- The empty database, as produced by `init_db` on a fresh instance. -/
def Store.empty : Store := { records := [], next_id := 0 }

/-! ## `/check_license` (`check_license_route`) -/

/-- The JSON payload of a check request.  `license_key = none` models the
field being absent from the JSON object. -/
structure CheckData where
  license_key : Option String
deriving Repr, DecidableEq

/-- Response of `check_license_route`: either an HTTP 400 client error or an
HTTP 200 verdict. -/
inductive CheckResult where
  | clientError (msg : String)
  | verdict (license_key : String) (is_valid : Bool) (status : String)
      (description : Option (Option String)) (expires_at : Option (Option Nat))
deriving Repr, DecidableEq

/-- The body of `check_license_route` after the row for the key has been
fetched (`cur.fetchone()`).  The handler computes `is_expired` but the
branch under `if db_expires_at:` is a `pass` — the verdict only tests
`db_is_active` (app.py lines 126-143). -/
def checkVerdict (records : List LicenseRecord) (k : String) : CheckResult :=
  match records.find? (fun r => r.license_key == k) with
  | some r =>
    -- `is_expired = False; if db_expires_at: pass` — dead computation in the source
    if r.is_active then
      .verdict k true "active" (some r.description) (some r.expires_at)
    else
      .verdict k false "inactive_or_expired" (some r.description) none
  | none => .verdict k false "not_found" none none

/-- `check_license_route`: request parsing (`req = none` models a non-JSON
payload; a missing `license_key` field yields HTTP 400), then the SELECT and
the verdict.  The store is returned unchanged: the handler runs no mutating
SQL. -/
def check_license_route (s : Store) (req : Option CheckData) :
    CheckResult × Store :=
  match req with
  | none => (.clientError "Invalid request: payload must be JSON", s)
  | some data =>
    match data.license_key with
    | none => (.clientError "License key not provided in JSON payload", s)
    | some k => (checkVerdict s.records k, s)

/-! ## `/add_license` (`add_license_route`) -/

/-- The JSON payload of a register request; `none` in a field models its
absence from the JSON object.  `is_active` defaults to `true` and
`expires_at` to `NULL` when absent (`data.get`). -/
structure RegisterData where
  license_key : Option String
  description : Option String
  is_active : Option Bool
  expires_at : Option Nat
deriving Repr, DecidableEq

/-- Response of `add_license_route`: HTTP 400 (missing required field),
HTTP 201 with the generated id and the key, or HTTP 409 on the UNIQUE
constraint violation (psycopg2.IntegrityError). -/
inductive RegisterResult where
  | badRequest (msg : String)
  | created (license_id : Nat) (license_key : String)
  | conflict (msg : String)
deriving Repr, DecidableEq

/-- `add_license_route`: requires `license_key` and `description` to be
present (only presence is tested — `all(field in data ...)`), then INSERTs
the row.  A duplicate `license_key` violates the UNIQUE constraint: the
transaction is rolled back and HTTP 409 returned, leaving the store
untouched. -/
def add_license_route (s : Store) (now : Nat) (req : Option RegisterData) :
    RegisterResult × Store :=
  match req with
  | none => (.badRequest "Invalid request: payload must be JSON", s)
  | some data =>
    match data.license_key, data.description with
    | some lk, some desc =>
      if s.records.any (fun r => r.license_key == lk) then
        (.conflict "License key already exists or other integrity violation", s)
      else
        let r : LicenseRecord :=
          { id := s.next_id, license_key := lk,
            is_active := data.is_active.getD true,
            description := some desc, created_at := now,
            expires_at := data.expires_at }
        (.created s.next_id lk,
          { records := s.records ++ [r], next_id := s.next_id + 1 })
    | _, _ => (.badRequest "Missing fields. Required: license_key, description", s)

/-! ## `/active_licenses` (`get_active_licenses_route`) -/

/-- One element of the `active_licenses` array in the list response:
the projected columns `license_key, description, created_at, expires_at`. -/
structure ActiveEntry where
  license_key : String
  description : Option String
  created_at : Nat
  expires_at : Option Nat
deriving Repr, DecidableEq

/-- Projection of a row onto the columns selected by the list query. -/
def toEntry (r : LicenseRecord) : ActiveEntry :=
  { license_key := r.license_key, description := r.description,
    created_at := r.created_at, expires_at := r.expires_at }

/-- The rows returned by
`SELECT ... FROM licenses WHERE is_active = TRUE ORDER BY created_at DESC`. -/
def activeRows (records : List LicenseRecord) : List LicenseRecord :=
  (records.filter (fun r => r.is_active)).mergeSort
    (fun a b => decide (b.created_at ≤ a.created_at))

/-- Response of `get_active_licenses_route`:
`{"count": len(active_licenses_list), "active_licenses": active_licenses_list}`. -/
structure ListResponse where
  count : Nat
  active_licenses : List ActiveEntry
deriving Repr, DecidableEq

/-- `get_active_licenses_route`: runs the filtered, ordered SELECT and
builds the response dictionaries. -/
def get_active_licenses_route (s : Store) : ListResponse :=
  let rows := activeRows s.records
  { count := (rows.map toEntry).length, active_licenses := rows.map toEntry }

end LicenseApp

namespace LicenseApp

/-! ## Theorems about the claims -/

/-- **C5**: for every key with no record in the store, Check returns the
verdict `status = "not_found"`, `is_valid = false` (an HTTP 200 response,
not an error). -/
theorem C5_check_not_found (s : Store) (k : String)
    (h : ∀ r ∈ s.records, r.license_key ≠ k) :
    check_license_route s (some ⟨some k⟩) =
      (.verdict k false "not_found" none none, s) := by
  have hfind : s.records.find? (fun r => r.license_key == k) = none := by
    rw [List.find?_eq_none]
    intro r hr
    simpa using h r hr
  simp [check_license_route, checkVerdict, hfind]

theorem C5_check_not_found_witness :
    (∀ r ∈ Store.empty.records, r.license_key ≠ "NOPE") ∧
      check_license_route Store.empty (some ⟨some "NOPE"⟩) =
        (.verdict "NOPE" false "not_found" none none, Store.empty) :=
  ⟨by simp [Store.empty], C5_check_not_found Store.empty "NOPE" (by simp [Store.empty])⟩

/-- **C6**: for every stored record with `active = false`, Check returns
`status = "inactive_or_expired"` with `is_valid = false`, regardless of
`expires_at`. -/
theorem C6_check_inactive (s : Store) (k : String) (r : LicenseRecord)
    (hfind : s.records.find? (fun r => r.license_key == k) = some r)
    (hact : r.is_active = false) :
    check_license_route s (some ⟨some k⟩) =
      (.verdict k false "inactive_or_expired" (some r.description) none, s) := by
  simp [check_license_route, checkVerdict, hfind, hact]

def inactiveRecord : LicenseRecord :=
  { id := 3, license_key := "OFF-1", is_active := false,
    description := some "disabled", created_at := 7, expires_at := some 999 }

theorem C6_check_inactive_witness :
    check_license_route { records := [inactiveRecord], next_id := 4 }
        (some ⟨some "OFF-1"⟩) =
      (.verdict "OFF-1" false "inactive_or_expired" (some (some "disabled")) none,
        { records := [inactiveRecord], next_id := 4 }) :=
  C6_check_inactive { records := [inactiveRecord], next_id := 4 } "OFF-1"
    inactiveRecord (by rfl) (by rfl)

/-- **C7**: for every stored record with `active = true` and no
`expires_at`, Check returns `status = "active"`, `is_valid = true`, with the
record's description and a null `expires_at` in the verdict. -/
theorem C7_check_active_no_expiry (s : Store) (k : String) (r : LicenseRecord)
    (hfind : s.records.find? (fun r => r.license_key == k) = some r)
    (hact : r.is_active = true) (hexp : r.expires_at = none) :
    check_license_route s (some ⟨some k⟩) =
      (.verdict k true "active" (some r.description) (some none), s) := by
  simp [check_license_route, checkVerdict, hfind, hact, hexp]

def trialRecord : LicenseRecord :=
  { id := 1, license_key := "ABC-123", is_active := true,
    description := some "trial", created_at := 2, expires_at := none }

theorem C7_check_active_no_expiry_witness :
    check_license_route { records := [trialRecord], next_id := 2 }
        (some ⟨some "ABC-123"⟩) =
      (.verdict "ABC-123" true "active" (some (some "trial")) (some none),
        { records := [trialRecord], next_id := 2 }) :=
  C7_check_active_no_expiry { records := [trialRecord], next_id := 2 } "ABC-123"
    trialRecord (by rfl) (by rfl) (by rfl)

end LicenseApp

namespace LicenseApp

/-- The scenario of claim C1: a record stored with `active = true` whose
`expires_at` (instant 0) lies strictly before the check instant. -/
def expiredActiveRecord : LicenseRecord :=
  { id := 5, license_key := "EXP-1", is_active := true,
    description := some "y", created_at := 0, expires_at := some 0 }

/-- **C1** (behaviour of the code at the failing input): for every check
instant strictly after the stored `expires_at`, the handler still returns
`status = "active"`, `is_valid = true` — the `is_expired` computation is
dead and only the `active` flag is tested, so the claimed
`inactive_or_expired` verdict is never produced.  The check instant appears
nowhere in the handler, which is exactly the defect. -/
theorem C1_code_returns_active_after_expiry (now : Nat)
    (h : expiredActiveRecord.expires_at = some 0 ∧ 0 < now) :
    check_license_route { records := [expiredActiveRecord], next_id := 6 }
        (some ⟨some "EXP-1"⟩) =
      (.verdict "EXP-1" true "active" (some (some "y")) (some (some 0)),
        { records := [expiredActiveRecord], next_id := 6 }) := by
  rfl

theorem C1_code_returns_active_after_expiry_witness :
    (expiredActiveRecord.expires_at = some 0 ∧ 0 < 100) ∧
      check_license_route { records := [expiredActiveRecord], next_id := 6 }
          (some ⟨some "EXP-1"⟩) =
        (.verdict "EXP-1" true "active" (some (some "y")) (some (some 0)),
          { records := [expiredActiveRecord], next_id := 6 }) :=
  ⟨⟨rfl, by decide⟩,
    C1_code_returns_active_after_expiry 100 ⟨rfl, by decide⟩⟩

/-- **C9**: Check is read-only and deterministic with respect to the store:
it returns the store unchanged, and a second call on the resulting store
(for the same request) returns the identical verdict.  The handler reads no
clock at all, so the verdict is trivially independent of the check
instant. -/
theorem C9_check_idempotent (s : Store) (req : Option CheckData) :
    (check_license_route s req).2 = s ∧
      (check_license_route (check_license_route s req).2 req).1 =
        (check_license_route s req).1 := by
  match req with
  | none => exact ⟨rfl, rfl⟩
  | some data =>
    match h : data.license_key with
    | none => simp [check_license_route, h]
    | some k => simp [check_license_route, h]

/-- **C10**: in every response of the list route, the `count` field equals
the length of the `active_licenses` array. -/
theorem C10_count_matches_length (s : Store) :
    (get_active_licenses_route s).count =
      (get_active_licenses_route s).active_licenses.length := rfl

/-- **C2** (counterexample): a register request whose `license_key` is
present but equal to the empty string is NOT rejected — the handler only
tests field presence — so a record with key `""` is persisted and the call
succeeds with id 0.  This refutes the claim that an empty key yields the
InvalidInput outcome with nothing persisted. -/
theorem C2_empty_key_is_accepted :
    add_license_route Store.empty 5
        (some { license_key := some "", description := some "x",
                is_active := none, expires_at := none }) =
      (.created 0 "",
        { records := [{ id := 0, license_key := "", is_active := true,
                        description := some "x", created_at := 5,
                        expires_at := none }],
          next_id := 1 }) := rfl

/-- **C2** (amended): Register fails with the client-error (InvalidInput)
outcome, persisting nothing, whenever `license_key` or `description` is
missing from the request payload; a `license_key` that is present but empty
passes validation and is registered like any other key. -/
theorem C2_missing_field_rejected (s : Store) (now : Nat) (data : RegisterData)
    (h : data.license_key = none ∨ data.description = none) :
    add_license_route s now (some data) =
      (.badRequest "Missing fields. Required: license_key, description", s) := by
  rcases data with ⟨lk, desc, ia, ea⟩
  rcases h with h | h <;> subst h
  · cases desc <;> rfl
  · cases lk <;> rfl

/-- A register payload lacking the `license_key` field. -/
def noKeyData : RegisterData :=
  { license_key := none, description := some "x", is_active := none,
    expires_at := none }

theorem C2_missing_field_rejected_witness :
    (noKeyData.license_key = none ∨ noKeyData.description = none) ∧
      add_license_route Store.empty 5 (some noKeyData) =
        (.badRequest "Missing fields. Required: license_key, description",
          Store.empty) :=
  ⟨Or.inl rfl,
    C2_missing_field_rejected Store.empty 5 noKeyData (Or.inl rfl)⟩

/-- **C8** (counterexample): a check request whose `license_key` is present
but equal to the empty string is NOT rejected as a client error — the
handler only tests field presence — and instead produces a normal
`not_found` verdict.  This refutes the claim that an empty key yields a
client-error outcome rather than a verdict. -/
theorem C8_empty_key_gets_verdict :
    check_license_route Store.empty (some ⟨some ""⟩) =
      (.verdict "" false "not_found" none none, Store.empty) := rfl

/-- **C8** (amended): Check requires the `license_key` field to be present:
a non-JSON payload or a JSON payload lacking the field yields a client-error
outcome rather than a verdict; a `license_key` that is present but empty is
accepted and validated like any other key. -/
theorem C8_missing_key_rejected (s : Store) :
    check_license_route s none =
      (.clientError "Invalid request: payload must be JSON", s) ∧
    check_license_route s (some ⟨none⟩) =
      (.clientError "License key not provided in JSON payload", s) :=
  ⟨rfl, rfl⟩

end LicenseApp

namespace LicenseApp

/-- **C3**: registering a key not yet in the store succeeds with the
generated id `s.next_id` and the key, persisting exactly one new record;
registering the same key again hits the UNIQUE constraint, returns the
conflict outcome, and leaves the store — in particular the record created
by the first call — exactly as the first call left it. -/
theorem C3_register_twice (s : Store) (now1 now2 : Nat) (data : RegisterData)
    (lk desc : String)
    (hk : data.license_key = some lk) (hd : data.description = some desc)
    (hfresh : ∀ r ∈ s.records, r.license_key ≠ lk) :
    add_license_route s now1 (some data) =
      (.created s.next_id lk,
        { records := s.records ++
            [{ id := s.next_id, license_key := lk,
               is_active := data.is_active.getD true,
               description := some desc, created_at := now1,
               expires_at := data.expires_at }],
          next_id := s.next_id + 1 }) ∧
    add_license_route (add_license_route s now1 (some data)).2 now2 (some data) =
      (.conflict "License key already exists or other integrity violation",
        (add_license_route s now1 (some data)).2) := by
  have hany : s.records.any (fun r => r.license_key == lk) = false := by
    rw [List.any_eq_false]
    intro r hr
    simpa using hfresh r hr
  constructor
  · simp [add_license_route, hk, hd, hany]
  · simp [add_license_route, hk, hd, hany, List.any_append]

/-- The register payload of spec scenario 2 (`DUP-1`). -/
def dupData : RegisterData :=
  { license_key := some "DUP-1", description := some "x", is_active := none,
    expires_at := none }

theorem C3_register_twice_witness :
    add_license_route Store.empty 1 (some dupData) =
      (.created 0 "DUP-1",
        { records := [{ id := 0, license_key := "DUP-1", is_active := true,
                        description := some "x", created_at := 1,
                        expires_at := none }],
          next_id := 1 }) ∧
    add_license_route (add_license_route Store.empty 1 (some dupData)).2 2
        (some dupData) =
      (.conflict "License key already exists or other integrity violation",
        (add_license_route Store.empty 1 (some dupData)).2) :=
  C3_register_twice Store.empty 1 2 dupData "DUP-1" "x" rfl rfl
    (by simp [Store.empty])

/-- **C4**: the list route returns exactly the projections of the records
with `active = true` — every returned entry comes from an active stored
record and every active stored record appears — and the returned array is
ordered by `created_at` descending. -/
theorem C4_list_active (s : Store) :
    (get_active_licenses_route s).active_licenses.Pairwise
        (fun a b => b.created_at ≤ a.created_at) ∧
    (∀ e ∈ (get_active_licenses_route s).active_licenses,
        ∃ r, r ∈ s.records ∧ r.is_active = true ∧ e = toEntry r) ∧
    (∀ r ∈ s.records, r.is_active = true →
        toEntry r ∈ (get_active_licenses_route s).active_licenses) := by
  refine ⟨?_, ?_, ?_⟩
  · have h1 := @List.sorted_mergeSort LicenseRecord
      (fun a b : LicenseRecord => decide (b.created_at ≤ a.created_at))
      (fun a b c hab hbc => by
        simp only [decide_eq_true_eq] at hab hbc ⊢
        omega)
      (fun a b => by
        simp only [Bool.or_eq_true, decide_eq_true_eq]
        omega)
      (s.records.filter (fun r => r.is_active))
    have h2 : (activeRows s.records).Pairwise
        (fun a b => b.created_at ≤ a.created_at) := by
      refine h1.imp ?_
      intro a b h
      simpa using h
    show ((activeRows s.records).map toEntry).Pairwise _
    rw [List.pairwise_map]
    exact h2
  · intro e he
    obtain ⟨r, hr, rfl⟩ := List.mem_map.1 he
    rw [activeRows, List.mem_mergeSort, List.mem_filter] at hr
    exact ⟨r, hr.1, hr.2, rfl⟩
  · intro r hr hact
    show toEntry r ∈ (activeRows s.records).map toEntry
    refine List.mem_map_of_mem _ ?_
    rw [activeRows, List.mem_mergeSort, List.mem_filter]
    exact ⟨hr, hact⟩

/-- Two active records registered at different instants (spec scenario 5). -/
def demoOld : LicenseRecord :=
  { id := 0, license_key := "A-1", is_active := true,
    description := some "a", created_at := 1, expires_at := none }

def demoNew : LicenseRecord :=
  { id := 1, license_key := "B-2", is_active := true,
    description := some "b", created_at := 2, expires_at := none }

def demoStore : Store := { records := [demoOld, demoNew], next_id := 2 }

theorem C4_list_active_witness :
    toEntry demoOld ∈ (get_active_licenses_route demoStore).active_licenses :=
  (C4_list_active demoStore).2.2 demoOld (List.Mem.head _) rfl

end LicenseApp
